import Mathlib

set_option maxRecDepth 100000

/-!
Verification of the btrfs root-item unpacking shim
(`vendor/github.com/stevvooe/go-btrfs/btrfs.c` / `btrfs.h`).

The C source defines one function:

  void unpack_root_item(struct gosafe_btrfs_root_item* dst,
                        struct btrfs_root_item* src) {
      memcpy(dst->uuid, src->uuid, BTRFS_UUID_SIZE);
      memcpy(dst->parent_uuid, src->parent_uuid, BTRFS_UUID_SIZE);
      memcpy(dst->received_uuid, src->received_uuid, BTRFS_UUID_SIZE);
      dst->gen = btrfs_root_generation(src);
      dst->ogen = btrfs_root_otransid(src);
      dst->flags = btrfs_root_flags(src);
  }

`struct btrfs_root_item` and the three accessors come from the external
kernel header `btrfs/ctree.h`: the struct is declared
`__attribute__((__packed__))`, and the accessors are generated by
`BTRFS_SETGET_STACK_FUNCS`, each performing `le64_to_cpu` on the named
field (a little-endian 64-bit read at the field's packed offset).

We embed the function twice, at two levels of abstraction:

* a struct-level model, where `btrfs_root_item` is a record of byte
  arrays (the direct translation of the C text: `memcpy` on the UUID
  arrays, `le64_to_cpu` accessors for the three u64 fields);
* a byte-level model `unpack_root_item_raw`, where the source record is
  a raw byte buffer and each field access is a bounds-checked read at
  the field's fixed packed offset.  An access past the end of the
  buffer is undefined behaviour in C; the embedding surfaces it as the
  error value `DecodeError.OutOfBounds`.  The C function performs no
  size check of its own, so the embedded code checks nothing before the
  reads.

`DecodeError.RecordTooSmall` is the error kind the specification
describes.  It is included in the error type so that the spec's
error-handling claims can be stated against the code; the code itself
never produces it.
-/

namespace Btrfs

/-- `BTRFS_UUID_SIZE` from the kernel header: UUID fields are 16 bytes. -/
def BTRFS_UUID_SIZE : Nat := 16

/-- Byte offsets of the fields of the packed `struct btrfs_root_item`
(external kernel header `btrfs/ctree.h`).  The struct layout is
`btrfs_inode_item inode` (160 bytes), then `__le64 generation`,
`root_dirid`, `bytenr`, `byte_limit`, `bytes_used`, `last_snapshot`,
`flags`, `__le32 refs`, `btrfs_disk_key drop_progress` (17 bytes),
`u8 drop_level`, `u8 level`, `__le64 generation_v2`, the three 16-byte
UUID arrays, `__le64 ctransid`, `otransid`, `stransid`, `rtransid`,
four 12-byte `btrfs_timespec` values and `__le64 reserved[8]`. -/
def GENERATION_OFFSET : Nat := 160

/-- Packed offset of the `flags` field (`160 + 6*8 = 208`). -/
def FLAGS_OFFSET : Nat := 208

/-- Packed offset of the `uuid` field (`208 + 8 + 4 + 17 + 1 + 1 + 8 = 247`). -/
def UUID_OFFSET : Nat := 247

/-- Packed offset of the `parent_uuid` field (`247 + 16 = 263`). -/
def PARENT_UUID_OFFSET : Nat := 263

/-- Packed offset of the `received_uuid` field (`263 + 16 = 279`). -/
def RECEIVED_UUID_OFFSET : Nat := 279

/-- Packed offset of the `otransid` field (`279 + 16 + 8 = 303`). -/
def OTRANSID_OFFSET : Nat := 303

/-- `sizeof(struct btrfs_root_item)` for the packed layout: 439 bytes. -/
def BTRFS_ROOT_ITEM_SIZE : Nat := 439

/-- One past the last byte `unpack_root_item` ever reads: the `otransid`
read covers bytes `[303, 311)` and is the highest-offset access. -/
def READ_LIMIT : Nat := OTRANSID_OFFSET + 8

/-- `le64_to_cpu` on a byte sequence: little-endian 64-bit value, the
first byte least significant.  This is the read the kernel accessor
macros perform on each packed `__le64` field. -/
def le64_to_cpu (bs : List Nat) : Nat :=
  bs.foldr (fun b acc => b + 256 * acc) 0

/-- `struct btrfs_root_item` (external kernel header `btrfs/ctree.h`),
fields in declaration order.  `__le64`/`__le32` fields are kept as their
byte sequences, since the struct is packed and the accessors read them
byte-wise (`le64_to_cpu`); sub-structs are kept as their raw bytes. -/
structure btrfs_root_item where
  inode : List Nat
  generation : List Nat
  root_dirid : List Nat
  bytenr : List Nat
  byte_limit : List Nat
  bytes_used : List Nat
  last_snapshot : List Nat
  flags : List Nat
  refs : List Nat
  drop_progress : List Nat
  drop_level : Nat
  level : Nat
  generation_v2 : List Nat
  uuid : List Nat
  parent_uuid : List Nat
  received_uuid : List Nat
  ctransid : List Nat
  otransid : List Nat
  stransid : List Nat
  rtransid : List Nat
  ctime : List Nat
  otime : List Nat
  stime : List Nat
  rtime : List Nat
  reserved : List Nat
deriving Repr, DecidableEq

/-- `struct gosafe_btrfs_root_item` (btrfs.h): three 16-byte UUID arrays
and three `u64` fields. -/
structure gosafe_btrfs_root_item where
  uuid : List Nat
  parent_uuid : List Nat
  received_uuid : List Nat
  gen : Nat
  ogen : Nat
  flags : Nat
deriving Repr, DecidableEq

/-- The C type invariant of `gosafe_btrfs_root_item`: the three UUID
members are `u8[BTRFS_UUID_SIZE]` arrays, so they hold exactly 16 bytes. -/
def gosafe_wf (d : gosafe_btrfs_root_item) : Prop :=
  d.uuid.length = BTRFS_UUID_SIZE ∧
  d.parent_uuid.length = BTRFS_UUID_SIZE ∧
  d.received_uuid.length = BTRFS_UUID_SIZE

instance (d : gosafe_btrfs_root_item) : Decidable (gosafe_wf d) := by
  unfold gosafe_wf; infer_instance

/-- `memcpy(dst, src, n)` on byte arrays: the first `n` bytes of `dst`
are replaced by the first `n` bytes of `src`; bytes beyond `n` keep the
destination's previous contents. -/
def memcpy (dst src : List Nat) (n : Nat) : List Nat :=
  src.take n ++ dst.drop n

/-- `btrfs_root_generation` accessor (kernel header,
`BTRFS_SETGET_STACK_FUNCS`): `le64_to_cpu` of the `generation` field. -/
def btrfs_root_generation (s : btrfs_root_item) : Nat :=
  le64_to_cpu s.generation

/-- `btrfs_root_otransid` accessor: `le64_to_cpu` of `otransid`. -/
def btrfs_root_otransid (s : btrfs_root_item) : Nat :=
  le64_to_cpu s.otransid

/-- `btrfs_root_flags` accessor: `le64_to_cpu` of `flags`. -/
def btrfs_root_flags (s : btrfs_root_item) : Nat :=
  le64_to_cpu s.flags

/-- Struct-level embedding of `unpack_root_item` (btrfs.c, lines 8-15):
three `memcpy`s of the UUID arrays, then the three accessor reads.  The
C function writes through `dst`, so it is modelled as a transformer of
the destination record. -/
def unpack_root_item (dst : gosafe_btrfs_root_item) (src : btrfs_root_item) :
    gosafe_btrfs_root_item :=
  { uuid := memcpy dst.uuid src.uuid BTRFS_UUID_SIZE
    parent_uuid := memcpy dst.parent_uuid src.parent_uuid BTRFS_UUID_SIZE
    received_uuid := memcpy dst.received_uuid src.received_uuid BTRFS_UUID_SIZE
    gen := btrfs_root_generation src
    ogen := btrfs_root_otransid src
    flags := btrfs_root_flags src }

/-- Errors of the byte-level embedding.  `OutOfBounds` marks an access
past the end of the source buffer — undefined behaviour in the C source,
which performs the access unconditionally.  `RecordTooSmall` is the
error kind the specification describes for undersized records; it is
present so the spec's claims can be stated, and the code never produces
it. -/
inductive DecodeError where
  | RecordTooSmall
  | OutOfBounds
deriving Repr, DecidableEq

/-- The contiguous byte range `[off, off + n)` of a buffer. -/
def slice (raw : List Nat) (off n : Nat) : List Nat :=
  (raw.drop off).take n

/-- A read of `n` bytes at fixed offset `off` of the source buffer, as
the C code performs through the packed struct pointer: defined exactly
when the whole range lies inside the buffer, undefined behaviour
(`OutOfBounds`) otherwise.  No size check precedes any read in the C
source. -/
def readField (raw : List Nat) (off n : Nat) :
    Except DecodeError (List Nat) :=
  if off + n ≤ raw.length then .ok (slice raw off n)
  else .error .OutOfBounds

/-- Byte-level embedding of `unpack_root_item`: the source record is a
raw byte buffer laid out as the packed `struct btrfs_root_item`, and
each field access of the C body becomes a read at the field's fixed
offset, in the order the C body performs them. -/
def unpack_root_item_raw (raw : List Nat) :
    Except DecodeError gosafe_btrfs_root_item := do
  let uuid ← readField raw UUID_OFFSET BTRFS_UUID_SIZE
  let parent_uuid ← readField raw PARENT_UUID_OFFSET BTRFS_UUID_SIZE
  let received_uuid ← readField raw RECEIVED_UUID_OFFSET BTRFS_UUID_SIZE
  let gen ← readField raw GENERATION_OFFSET 8
  let ogen ← readField raw OTRANSID_OFFSET 8
  let flags ← readField raw FLAGS_OFFSET 8
  return { uuid := uuid
           parent_uuid := parent_uuid
           received_uuid := received_uuid
           gen := le64_to_cpu gen
           ogen := le64_to_cpu ogen
           flags := le64_to_cpu flags }

/-- The state a call touches: the source record, the destination record
and the rest of the caller's memory.  The C function receives only the
two pointers, so `rest` stands for every other byte the caller owns. -/
structure Memory where
  src : btrfs_root_item
  dst : gosafe_btrfs_root_item
  rest : List Nat
deriving Repr, DecidableEq

/-- A call `unpack_root_item(&m.dst, &m.src)` as a state transformer:
the body's only writes are the six field writes through `dst`. -/
def unpack_root_item_call (m : Memory) : Memory :=
  { m with dst := unpack_root_item m.dst m.src }

/-- `bind` on a successful `Except` computation passes the value on. -/
theorem except_bind_ok {ε α β : Type} (a : α) (f : α → Except ε β) :
    (Except.ok a : Except ε α) >>= f = f a := rfl

/-- `bind` on a failed `Except` computation propagates the error. -/
theorem except_bind_error {ε α β : Type} (e : ε) (f : α → Except ε β) :
    (Except.error e : Except ε α) >>= f = Except.error e := rfl

/-- `map` over a successful `Except` computation applies the function. -/
theorem except_map_ok {ε α β : Type} (f : α → β) (a : α) :
    f <$> (Except.ok a : Except ε α) = Except.ok (f a) := rfl

/-- `map` over a failed `Except` computation propagates the error. -/
theorem except_map_error {ε α β : Type} (f : α → β) (e : ε) :
    f <$> (Except.error e : Except ε α) = Except.error e := rfl

/-- Closed form of the byte-level embedding: all six reads lie inside
the buffer exactly when the buffer reaches `READ_LIMIT` (311, one past
the `otransid` field), in which case the decode succeeds with the six
slices; otherwise some read runs past the end and the call is undefined
behaviour. -/
theorem unpack_root_item_raw_eq (raw : List Nat) :
    unpack_root_item_raw raw =
      if READ_LIMIT ≤ raw.length then
        .ok { uuid := slice raw UUID_OFFSET BTRFS_UUID_SIZE
              parent_uuid := slice raw PARENT_UUID_OFFSET BTRFS_UUID_SIZE
              received_uuid := slice raw RECEIVED_UUID_OFFSET BTRFS_UUID_SIZE
              gen := le64_to_cpu (slice raw GENERATION_OFFSET 8)
              ogen := le64_to_cpu (slice raw OTRANSID_OFFSET 8)
              flags := le64_to_cpu (slice raw FLAGS_OFFSET 8) }
      else .error .OutOfBounds := by
  by_cases h : READ_LIMIT ≤ raw.length
  · have h1 : UUID_OFFSET + BTRFS_UUID_SIZE ≤ raw.length := by
      unfold READ_LIMIT OTRANSID_OFFSET at h
      unfold UUID_OFFSET BTRFS_UUID_SIZE; omega
    have h2 : PARENT_UUID_OFFSET + BTRFS_UUID_SIZE ≤ raw.length := by
      unfold READ_LIMIT OTRANSID_OFFSET at h
      unfold PARENT_UUID_OFFSET BTRFS_UUID_SIZE; omega
    have h3 : RECEIVED_UUID_OFFSET + BTRFS_UUID_SIZE ≤ raw.length := by
      unfold READ_LIMIT OTRANSID_OFFSET at h
      unfold RECEIVED_UUID_OFFSET BTRFS_UUID_SIZE; omega
    have h4 : GENERATION_OFFSET + 8 ≤ raw.length := by
      unfold READ_LIMIT OTRANSID_OFFSET at h
      unfold GENERATION_OFFSET; omega
    have h5 : OTRANSID_OFFSET + 8 ≤ raw.length := h
    have h6 : FLAGS_OFFSET + 8 ≤ raw.length := by
      unfold READ_LIMIT OTRANSID_OFFSET at h
      unfold FLAGS_OFFSET; omega
    simp [unpack_root_item_raw, readField, h, h1, h2, h3, h4, h5, h6,
      except_bind_ok, except_bind_error, except_map_ok, except_map_error]
  · simp only [unpack_root_item_raw, readField, if_neg h]
    by_cases h1 : UUID_OFFSET + BTRFS_UUID_SIZE ≤ raw.length
    · by_cases h2 : PARENT_UUID_OFFSET + BTRFS_UUID_SIZE ≤ raw.length
      · by_cases h3 : RECEIVED_UUID_OFFSET + BTRFS_UUID_SIZE ≤ raw.length
        · by_cases h4 : GENERATION_OFFSET + 8 ≤ raw.length
          · have h5 : ¬ (OTRANSID_OFFSET + 8 ≤ raw.length) := h
            simp [h1, h2, h3, h4, h5,
              except_bind_ok, except_bind_error, except_map_ok,
              except_map_error]
          · simp [h1, h2, h3, h4,
              except_bind_ok, except_bind_error, except_map_ok,
              except_map_error]
        · simp [h1, h2, h3,
            except_bind_ok, except_bind_error, except_map_ok,
            except_map_error]
      · simp [h1, h2,
          except_bind_ok, except_bind_error, except_map_ok,
          except_map_error]
    · simp [h1,
        except_bind_ok, except_bind_error, except_map_ok, except_map_error]

instance {ε α : Type} [DecidableEq ε] [DecidableEq α] :
    DecidableEq (Except ε α)
  | .ok x, .ok y =>
    if h : x = y then .isTrue (h ▸ rfl)
    else .isFalse fun hh => h (by cases hh; rfl)
  | .ok _, .error _ => .isFalse fun hh => by cases hh
  | .error _, .ok _ => .isFalse fun hh => by cases hh
  | .error e, .error f =>
    if h : e = f then .isTrue (h ▸ rfl)
    else .isFalse fun hh => h (by cases hh; rfl)

/-- The concrete record of the spec's test scenario, laid out as the
packed struct: generation 42 at offset 160, flags 1 at offset 208, uuid
bytes 0x01 at offset 247, zero parent and received UUIDs, otransid 40 at
offset 303, everything else zero; 439 bytes in total. -/
def testRecord : List Nat :=
  List.replicate 160 0 ++ [42, 0, 0, 0, 0, 0, 0, 0] ++
  List.replicate 40 0 ++ [1, 0, 0, 0, 0, 0, 0, 0] ++
  List.replicate 31 0 ++ List.replicate 16 1 ++
  List.replicate 16 0 ++ List.replicate 16 0 ++
  List.replicate 8 0 ++ [40, 0, 0, 0, 0, 0, 0, 0] ++
  List.replicate 128 0

/-- A correctly sized record whose generation (5, at offset 160) is
smaller than its otransid (9, at offset 303): content the domain layer
would consider out of order. -/
def unorderedRecord : List Nat :=
  List.replicate 160 0 ++ [5, 0, 0, 0, 0, 0, 0, 0] ++
  List.replicate 135 0 ++ [9, 0, 0, 0, 0, 0, 0, 0] ++
  List.replicate 128 0

/-- A concrete source struct for witnesses: generation 11, flags 3,
otransid 7, uuid bytes 0xAA, parent and received UUIDs zero. -/
def testSrcItem : btrfs_root_item where
  inode := List.replicate 160 0
  generation := [11, 0, 0, 0, 0, 0, 0, 0]
  root_dirid := List.replicate 8 0
  bytenr := List.replicate 8 0
  byte_limit := List.replicate 8 0
  bytes_used := List.replicate 8 0
  last_snapshot := List.replicate 8 0
  flags := [3, 0, 0, 0, 0, 0, 0, 0]
  refs := List.replicate 4 0
  drop_progress := List.replicate 17 0
  drop_level := 0
  level := 0
  generation_v2 := [11, 0, 0, 0, 0, 0, 0, 0]
  uuid := List.replicate 16 170
  parent_uuid := List.replicate 16 0
  received_uuid := List.replicate 16 0
  ctransid := List.replicate 8 0
  otransid := [7, 0, 0, 0, 0, 0, 0, 0]
  stransid := List.replicate 8 0
  rtransid := List.replicate 8 0
  ctime := List.replicate 12 0
  otime := List.replicate 12 0
  stime := List.replicate 12 0
  rtime := List.replicate 12 0
  reserved := List.replicate 64 0

/-- C1 counterexample: the empty buffer is smaller than the fixed record
size, yet the decode does not fail with a RecordTooSmall error — the
code has no such error path; the undersized access is undefined
behaviour instead. -/
theorem no_record_too_small_error_cx :
    ([] : List Nat).length < BTRFS_ROOT_ITEM_SIZE ∧
    unpack_root_item_raw [] ≠ Except.error DecodeError.RecordTooSmall := by
  constructor
  · decide
  · rw [unpack_root_item_raw_eq]
    decide

/-- C1 (amended): the code never signals a RecordTooSmall (or any
size) error — it performs no size check and has no error channel; it
succeeds exactly when the buffer covers every fixed field offset it
reads (length at least READ_LIMIT = 311), and on a shorter buffer the
result is an out-of-bounds access, not a reported error. -/
theorem unpack_never_signals_record_too_small (raw : List Nat) :
    unpack_root_item_raw raw ≠ Except.error DecodeError.RecordTooSmall ∧
    ((∃ out, unpack_root_item_raw raw = Except.ok out) ↔
      READ_LIMIT ≤ raw.length) := by
  rw [unpack_root_item_raw_eq]
  by_cases h : READ_LIMIT ≤ raw.length
  · simp [h]
  · simp [h]

/-- C2: for every correctly sized input, the decode succeeds and the
three output UUID fields are the verbatim 16-byte slices of the input at
the uuid, parent_uuid and received_uuid offsets; in particular an
all-zero parent_uuid or received_uuid region decodes to an all-zero
field. -/
theorem unpack_copies_uuid_regions_verbatim (raw : List Nat)
    (h : BTRFS_ROOT_ITEM_SIZE ≤ raw.length) :
    ∃ out, unpack_root_item_raw raw = Except.ok out ∧
      out.uuid = slice raw UUID_OFFSET BTRFS_UUID_SIZE ∧
      out.parent_uuid = slice raw PARENT_UUID_OFFSET BTRFS_UUID_SIZE ∧
      out.received_uuid = slice raw RECEIVED_UUID_OFFSET BTRFS_UUID_SIZE ∧
      (slice raw PARENT_UUID_OFFSET BTRFS_UUID_SIZE =
          List.replicate BTRFS_UUID_SIZE 0 →
        out.parent_uuid = List.replicate BTRFS_UUID_SIZE 0) ∧
      (slice raw RECEIVED_UUID_OFFSET BTRFS_UUID_SIZE =
          List.replicate BTRFS_UUID_SIZE 0 →
        out.received_uuid = List.replicate BTRFS_UUID_SIZE 0) := by
  have hl : READ_LIMIT ≤ raw.length := by
    unfold READ_LIMIT OTRANSID_OFFSET
    unfold BTRFS_ROOT_ITEM_SIZE at h
    omega
  rw [unpack_root_item_raw_eq, if_pos hl]
  exact ⟨_, rfl, rfl, rfl, rfl, fun hh => hh, fun hh => hh⟩

/-- C2 witness: the verbatim-copy theorem applied to a concrete
439-byte buffer. -/
theorem unpack_copies_uuid_regions_verbatim_witness :
    BTRFS_ROOT_ITEM_SIZE ≤ (List.replicate 439 2).length ∧
    (∃ out, unpack_root_item_raw (List.replicate 439 2) = Except.ok out ∧
      out.uuid = slice (List.replicate 439 2) UUID_OFFSET BTRFS_UUID_SIZE ∧
      out.parent_uuid =
        slice (List.replicate 439 2) PARENT_UUID_OFFSET BTRFS_UUID_SIZE ∧
      out.received_uuid =
        slice (List.replicate 439 2) RECEIVED_UUID_OFFSET BTRFS_UUID_SIZE ∧
      (slice (List.replicate 439 2) PARENT_UUID_OFFSET BTRFS_UUID_SIZE =
          List.replicate BTRFS_UUID_SIZE 0 →
        out.parent_uuid = List.replicate BTRFS_UUID_SIZE 0) ∧
      (slice (List.replicate 439 2) RECEIVED_UUID_OFFSET BTRFS_UUID_SIZE =
          List.replicate BTRFS_UUID_SIZE 0 →
        out.received_uuid = List.replicate BTRFS_UUID_SIZE 0)) :=
  ⟨by decide, unpack_copies_uuid_regions_verbatim (List.replicate 439 2)
    (by decide)⟩

/-- C3: for every correctly sized input, the gen, ogen and flags output
fields are the little-endian 64-bit values of the 8-byte regions at the
generation, otransid and flags offsets; the flags value is exactly the
encoded number, passed through unmodified. -/
theorem unpack_extracts_u64_fields (raw : List Nat)
    (h : BTRFS_ROOT_ITEM_SIZE ≤ raw.length) :
    ∃ out, unpack_root_item_raw raw = Except.ok out ∧
      out.gen = le64_to_cpu (slice raw GENERATION_OFFSET 8) ∧
      out.ogen = le64_to_cpu (slice raw OTRANSID_OFFSET 8) ∧
      out.flags = le64_to_cpu (slice raw FLAGS_OFFSET 8) := by
  have hl : READ_LIMIT ≤ raw.length := by
    unfold READ_LIMIT OTRANSID_OFFSET
    unfold BTRFS_ROOT_ITEM_SIZE at h
    omega
  rw [unpack_root_item_raw_eq, if_pos hl]
  exact ⟨_, rfl, rfl, rfl, rfl⟩

/-- C3 witness: the u64-extraction theorem applied to a concrete
439-byte buffer. -/
theorem unpack_extracts_u64_fields_witness :
    BTRFS_ROOT_ITEM_SIZE ≤ (List.replicate 439 3).length ∧
    (∃ out, unpack_root_item_raw (List.replicate 439 3) = Except.ok out ∧
      out.gen = le64_to_cpu (slice (List.replicate 439 3) GENERATION_OFFSET 8) ∧
      out.ogen = le64_to_cpu (slice (List.replicate 439 3) OTRANSID_OFFSET 8) ∧
      out.flags = le64_to_cpu (slice (List.replicate 439 3) FLAGS_OFFSET 8)) :=
  ⟨by decide, unpack_extracts_u64_fields (List.replicate 439 3) (by decide)⟩

/-- C4 counterexample: a 320-byte buffer is smaller than the fixed
record size (439), yet the decode does not fail at all — every read
stays in bounds (all accessed offsets end by 311), so a fully populated
value is returned instead of a RecordTooSmall error. -/
theorem undersized_record_accepted_cx :
    (List.replicate 320 7).length < BTRFS_ROOT_ITEM_SIZE ∧
    ∃ out, unpack_root_item_raw (List.replicate 320 7) = Except.ok out := by
  constructor
  · decide
  · rw [unpack_root_item_raw_eq, if_pos (by decide)]
    exact ⟨_, rfl⟩

/-- C4 (amended): an undersized buffer is not rejected and no
RecordTooSmall error exists; if the buffer still covers every accessed
field range (length at least READ_LIMIT = 311) the decode succeeds and
returns a fully populated value, and if it does not, the decode
attempts a read past the buffer end (undefined behaviour) instead of
reporting an error. -/
theorem undersized_record_behavior (raw : List Nat)
    (h : raw.length < BTRFS_ROOT_ITEM_SIZE) :
    unpack_root_item_raw raw ≠ Except.error DecodeError.RecordTooSmall ∧
    (READ_LIMIT ≤ raw.length →
      ∃ out, unpack_root_item_raw raw = Except.ok out) ∧
    (raw.length < READ_LIMIT →
      unpack_root_item_raw raw = Except.error DecodeError.OutOfBounds) := by
  by_cases hl : READ_LIMIT ≤ raw.length
  · rw [unpack_root_item_raw_eq, if_pos hl]
    exact ⟨by simp, fun _ => ⟨_, rfl⟩, fun hlt => absurd hl (by omega)⟩
  · rw [unpack_root_item_raw_eq, if_neg hl]
    exact ⟨by decide, fun hge => absurd hge hl, fun _ => rfl⟩

/-- C4 witness: the undersized-behaviour theorem applied to a concrete
100-byte buffer, which is too short even for the accessed ranges. -/
theorem undersized_record_behavior_witness :
    (List.replicate 100 9).length < BTRFS_ROOT_ITEM_SIZE ∧
    (unpack_root_item_raw (List.replicate 100 9) ≠
        Except.error DecodeError.RecordTooSmall ∧
      (READ_LIMIT ≤ (List.replicate 100 9).length →
        ∃ out, unpack_root_item_raw (List.replicate 100 9) = Except.ok out) ∧
      ((List.replicate 100 9).length < READ_LIMIT →
        unpack_root_item_raw (List.replicate 100 9) =
          Except.error DecodeError.OutOfBounds)) :=
  ⟨by decide, undersized_record_behavior (List.replicate 100 9) (by decide)⟩

/-- C5: on the spec's concrete scenario record (uuid bytes 0x01, zero
parent and received UUIDs, generation 42, otransid 40, flags 1 at the
documented offsets) the decode returns exactly those six field values. -/
theorem unpack_concrete_scenario :
    unpack_root_item_raw testRecord =
      Except.ok { uuid := List.replicate 16 1
                  parent_uuid := List.replicate 16 0
                  received_uuid := List.replicate 16 0
                  gen := 42
                  ogen := 40
                  flags := 1 } := by
  decide

/-- C6: the decode is deterministic and independent of any other state:
identical source bytes always produce identical results, whatever the
previous contents of the destination record were (the C destination
arrays being 16-byte arrays). -/
theorem unpack_deterministic (dst1 dst2 : gosafe_btrfs_root_item)
    (src1 src2 : btrfs_root_item)
    (h1 : gosafe_wf dst1) (h2 : gosafe_wf dst2) (hsrc : src1 = src2) :
    unpack_root_item dst1 src1 = unpack_root_item dst2 src2 := by
  subst hsrc
  obtain ⟨a1, b1, c1⟩ := h1
  obtain ⟨a2, b2, c2⟩ := h2
  have e1 : dst1.uuid.drop BTRFS_UUID_SIZE = [] :=
    List.drop_eq_nil_of_le (le_of_eq a1)
  have e2 : dst1.parent_uuid.drop BTRFS_UUID_SIZE = [] :=
    List.drop_eq_nil_of_le (le_of_eq b1)
  have e3 : dst1.received_uuid.drop BTRFS_UUID_SIZE = [] :=
    List.drop_eq_nil_of_le (le_of_eq c1)
  have e4 : dst2.uuid.drop BTRFS_UUID_SIZE = [] :=
    List.drop_eq_nil_of_le (le_of_eq a2)
  have e5 : dst2.parent_uuid.drop BTRFS_UUID_SIZE = [] :=
    List.drop_eq_nil_of_le (le_of_eq b2)
  have e6 : dst2.received_uuid.drop BTRFS_UUID_SIZE = [] :=
    List.drop_eq_nil_of_le (le_of_eq c2)
  simp [unpack_root_item, memcpy, e1, e2, e3, e4, e5, e6]

/-- C6 witness: two destination records with different previous
contents, the same concrete source: equal results. -/
theorem unpack_deterministic_witness :
    gosafe_wf ⟨List.replicate 16 0, List.replicate 16 0,
      List.replicate 16 0, 0, 0, 0⟩ ∧
    gosafe_wf ⟨List.replicate 16 5, List.replicate 16 6,
      List.replicate 16 7, 1, 2, 3⟩ ∧
    testSrcItem = testSrcItem ∧
    unpack_root_item ⟨List.replicate 16 0, List.replicate 16 0,
        List.replicate 16 0, 0, 0, 0⟩ testSrcItem =
      unpack_root_item ⟨List.replicate 16 5, List.replicate 16 6,
        List.replicate 16 7, 1, 2, 3⟩ testSrcItem :=
  ⟨by decide, by decide, rfl,
    unpack_deterministic _ _ testSrcItem testSrcItem
      (by decide) (by decide) rfl⟩

/-- C7: the decode is total over correctly sized inputs: whatever the
content of the bytes — arbitrary UUID bytes, arbitrary flag bits, even
a generation smaller than the origin generation — it succeeds with a
fully populated value, validating nothing. -/
theorem unpack_total_on_correctly_sized (raw : List Nat)
    (h : BTRFS_ROOT_ITEM_SIZE ≤ raw.length) :
    ∃ out, unpack_root_item_raw raw = Except.ok out := by
  have hl : READ_LIMIT ≤ raw.length := by
    unfold READ_LIMIT OTRANSID_OFFSET
    unfold BTRFS_ROOT_ITEM_SIZE at h
    omega
  rw [unpack_root_item_raw_eq, if_pos hl]
  exact ⟨_, rfl⟩

/-- C7 witness: totality applied to a record whose generation (5) is
smaller than its otransid (9) — content no caller would consider
well-ordered — which still decodes successfully. -/
theorem unpack_total_on_correctly_sized_witness :
    BTRFS_ROOT_ITEM_SIZE ≤ unorderedRecord.length ∧
    ∃ out, unpack_root_item_raw unorderedRecord = Except.ok out :=
  ⟨by decide, unpack_total_on_correctly_sized unorderedRecord (by decide)⟩

/-- C8: a call has no side effects beyond the destination record: the
source record and all other caller memory are unchanged, and the only
state the call touches is the destination, which receives exactly the
unpacked value. -/
theorem unpack_call_no_side_effects (m : Memory) :
    (unpack_root_item_call m).src = m.src ∧
    (unpack_root_item_call m).rest = m.rest ∧
    (unpack_root_item_call m).dst = unpack_root_item m.dst m.src :=
  ⟨rfl, rfl, rfl⟩

/-- C9: the implemented function provides no error channel: on every
call all six field writes execute — each output field is fully
determined by the source, none keeps the destination's previous
value — and no input ever yields a RecordTooSmall-style error. -/
theorem unpack_no_error_channel (dst : gosafe_btrfs_root_item)
    (src : btrfs_root_item) (h : gosafe_wf dst) :
    (unpack_root_item dst src).uuid = src.uuid.take BTRFS_UUID_SIZE ∧
    (unpack_root_item dst src).parent_uuid =
      src.parent_uuid.take BTRFS_UUID_SIZE ∧
    (unpack_root_item dst src).received_uuid =
      src.received_uuid.take BTRFS_UUID_SIZE ∧
    (unpack_root_item dst src).gen = btrfs_root_generation src ∧
    (unpack_root_item dst src).ogen = btrfs_root_otransid src ∧
    (unpack_root_item dst src).flags = btrfs_root_flags src ∧
    ∀ raw : List Nat,
      unpack_root_item_raw raw ≠ Except.error DecodeError.RecordTooSmall := by
  obtain ⟨a, b, c⟩ := h
  refine ⟨?_, ?_, ?_, rfl, rfl, rfl, ?_⟩
  · simp [unpack_root_item, memcpy, List.drop_eq_nil_of_le (le_of_eq a)]
  · simp [unpack_root_item, memcpy, List.drop_eq_nil_of_le (le_of_eq b)]
  · simp [unpack_root_item, memcpy, List.drop_eq_nil_of_le (le_of_eq c)]
  · intro raw
    rw [unpack_root_item_raw_eq]
    by_cases hl : READ_LIMIT ≤ raw.length
    · simp [hl]
    · simp [hl]

/-- C9 witness: the no-error-channel theorem applied to a concrete
destination and source. -/
theorem unpack_no_error_channel_witness :
    gosafe_wf ⟨List.replicate 16 9, List.replicate 16 8,
      List.replicate 16 7, 4, 5, 6⟩ ∧
    ((unpack_root_item ⟨List.replicate 16 9, List.replicate 16 8,
        List.replicate 16 7, 4, 5, 6⟩ testSrcItem).uuid =
        testSrcItem.uuid.take BTRFS_UUID_SIZE ∧
      (unpack_root_item ⟨List.replicate 16 9, List.replicate 16 8,
        List.replicate 16 7, 4, 5, 6⟩ testSrcItem).parent_uuid =
        testSrcItem.parent_uuid.take BTRFS_UUID_SIZE ∧
      (unpack_root_item ⟨List.replicate 16 9, List.replicate 16 8,
        List.replicate 16 7, 4, 5, 6⟩ testSrcItem).received_uuid =
        testSrcItem.received_uuid.take BTRFS_UUID_SIZE ∧
      (unpack_root_item ⟨List.replicate 16 9, List.replicate 16 8,
        List.replicate 16 7, 4, 5, 6⟩ testSrcItem).gen =
        btrfs_root_generation testSrcItem ∧
      (unpack_root_item ⟨List.replicate 16 9, List.replicate 16 8,
        List.replicate 16 7, 4, 5, 6⟩ testSrcItem).ogen =
        btrfs_root_otransid testSrcItem ∧
      (unpack_root_item ⟨List.replicate 16 9, List.replicate 16 8,
        List.replicate 16 7, 4, 5, 6⟩ testSrcItem).flags =
        btrfs_root_flags testSrcItem ∧
      ∀ raw : List Nat,
        unpack_root_item_raw raw ≠
          Except.error DecodeError.RecordTooSmall) :=
  ⟨by decide,
    unpack_no_error_channel ⟨List.replicate 16 9, List.replicate 16 8,
      List.replicate 16 7, 4, 5, 6⟩ testSrcItem (by decide)⟩

/-- C10: the decoded output depends only on the six read regions: two
correctly sized buffers that agree on the uuid, parent_uuid,
received_uuid, generation, otransid and flags regions decode to the
same value, whatever their other bytes hold. -/
theorem unpack_depends_only_on_six_regions (raw1 raw2 : List Nat)
    (h1 : BTRFS_ROOT_ITEM_SIZE ≤ raw1.length)
    (h2 : BTRFS_ROOT_ITEM_SIZE ≤ raw2.length)
    (huuid : slice raw1 UUID_OFFSET BTRFS_UUID_SIZE =
      slice raw2 UUID_OFFSET BTRFS_UUID_SIZE)
    (hpar : slice raw1 PARENT_UUID_OFFSET BTRFS_UUID_SIZE =
      slice raw2 PARENT_UUID_OFFSET BTRFS_UUID_SIZE)
    (hrec : slice raw1 RECEIVED_UUID_OFFSET BTRFS_UUID_SIZE =
      slice raw2 RECEIVED_UUID_OFFSET BTRFS_UUID_SIZE)
    (hgen : slice raw1 GENERATION_OFFSET 8 = slice raw2 GENERATION_OFFSET 8)
    (hogen : slice raw1 OTRANSID_OFFSET 8 = slice raw2 OTRANSID_OFFSET 8)
    (hflags : slice raw1 FLAGS_OFFSET 8 = slice raw2 FLAGS_OFFSET 8) :
    unpack_root_item_raw raw1 = unpack_root_item_raw raw2 := by
  have hl1 : READ_LIMIT ≤ raw1.length := by
    unfold READ_LIMIT OTRANSID_OFFSET
    unfold BTRFS_ROOT_ITEM_SIZE at h1
    omega
  have hl2 : READ_LIMIT ≤ raw2.length := by
    unfold READ_LIMIT OTRANSID_OFFSET
    unfold BTRFS_ROOT_ITEM_SIZE at h2
    omega
  rw [unpack_root_item_raw_eq, unpack_root_item_raw_eq, if_pos hl1,
    if_pos hl2, huuid, hpar, hrec, hgen, hogen, hflags]

/-- C10 witness: two concrete buffers that differ in their first byte
(inside the inode region) but agree on the six read regions decode to
the same value. -/
theorem unpack_depends_only_on_six_regions_witness :
    BTRFS_ROOT_ITEM_SIZE ≤ (List.replicate 439 0).length ∧
    BTRFS_ROOT_ITEM_SIZE ≤ (255 :: List.replicate 438 0).length ∧
    slice (List.replicate 439 0) UUID_OFFSET BTRFS_UUID_SIZE =
      slice (255 :: List.replicate 438 0) UUID_OFFSET BTRFS_UUID_SIZE ∧
    slice (List.replicate 439 0) PARENT_UUID_OFFSET BTRFS_UUID_SIZE =
      slice (255 :: List.replicate 438 0) PARENT_UUID_OFFSET BTRFS_UUID_SIZE ∧
    slice (List.replicate 439 0) RECEIVED_UUID_OFFSET BTRFS_UUID_SIZE =
      slice (255 :: List.replicate 438 0) RECEIVED_UUID_OFFSET
        BTRFS_UUID_SIZE ∧
    slice (List.replicate 439 0) GENERATION_OFFSET 8 =
      slice (255 :: List.replicate 438 0) GENERATION_OFFSET 8 ∧
    slice (List.replicate 439 0) OTRANSID_OFFSET 8 =
      slice (255 :: List.replicate 438 0) OTRANSID_OFFSET 8 ∧
    slice (List.replicate 439 0) FLAGS_OFFSET 8 =
      slice (255 :: List.replicate 438 0) FLAGS_OFFSET 8 ∧
    unpack_root_item_raw (List.replicate 439 0) =
      unpack_root_item_raw (255 :: List.replicate 438 0) :=
  ⟨by decide, by decide, by decide, by decide, by decide, by decide,
    by decide, by decide,
    unpack_depends_only_on_six_regions (List.replicate 439 0)
      (255 :: List.replicate 438 0) (by decide) (by decide) (by decide)
      (by decide) (by decide) (by decide) (by decide) (by decide)⟩

end Btrfs
